import Mathlib

set_option linter.unusedVariables false

/-!
Verification of the JNI model-handle bridge (`llama_jni.cpp`) and the
Objective-C TTS bridge header (`SherpaONNXBridge.h`) of the RunanywhereAI
sdks repository.

The JNI bridge manipulates a native heap of `LlamaModel` objects addressed
by pointer-sized integer handles (`jlong`).  We embed that heap explicitly:
a `Heap` maps non-zero handles to live `LlamaModel` objects, and every
native entry point becomes a Lean function over the heap.  A C++ operation
that dereferences or frees a pointer that is not a live allocation is
undefined behavior; such outcomes are modelled by the `JniResult.ub`
constructor, while defined outcomes are `JniResult.ok`.
-/

set_option autoImplicit false

/-- The `LlamaModel` struct of `llama_jni.cpp`: a model path, a vocabulary
size, a context size and a loaded flag. -/
structure LlamaModel where
  model_path : String
  vocab_size : Nat
  context_size : Nat
  loaded : Bool
deriving DecidableEq, Repr

/-- The `LlamaModel(const std::string&)` constructor: stores the path and
initializes `vocab_size = 32000`, `context_size = 2048`, `loaded = false`. -/
def mkLlamaModel (path : String) : LlamaModel :=
  { model_path := path, vocab_size := 32000, context_size := 2048, loaded := false }

/-- A `jlong` handle value; `0` is the null handle. -/
abbrev Handle := Nat

/-- The native heap: an association list of live allocations (handle value to
object) together with the next fresh address the allocator will hand out. -/
structure Heap where
  mem : List (Handle × LlamaModel)
  next : Handle
deriving DecidableEq, Repr

/-- The initial heap: no live allocations; addresses start at 1 (a real
allocator never returns the null pointer). -/
def emptyHeap : Heap := { mem := [], next := 1 }

/-- Look up the object stored at a given address, if the address is live. -/
def heapGet : List (Handle × LlamaModel) → Handle → Option LlamaModel
  | [], _ => none
  | (k, m) :: rest, h => if k = h then some m else heapGet rest h

/-- Deallocate the object stored at a given address. -/
def heapRemove : List (Handle × LlamaModel) → Handle → List (Handle × LlamaModel)
  | [], _ => []
  | (k, m) :: rest, h => if k = h then rest else (k, m) :: heapRemove rest h

/-- Well-formedness of a heap: the allocator never hands out the null
address, every live address was handed out earlier, and every live object
carries the constructor constants (`vocab_size = 32000`,
`context_size = 2048`) — the only mutation the bridge ever performs on a
model is setting `loaded`. -/
def Heap.WF (σ : Heap) : Prop :=
  0 < σ.next ∧
    ∀ p ∈ σ.mem, p.1 ≠ 0 ∧ p.1 < σ.next ∧
      p.2.vocab_size = 32000 ∧ p.2.context_size = 2048

instance (σ : Heap) : Decidable σ.WF := by
  unfold Heap.WF; infer_instance

/-- Outcome of a native call: a defined result, or undefined behavior
(dereference or free of a pointer that is not a live allocation). -/
inductive JniResult (α : Type) where
  | ok : α → JniResult α
  | ub : JniResult α
deriving DecidableEq, Repr

/-- `nativeLoadModel`: allocates `new LlamaModel(path)`, sets
`model->loaded = true`, and returns the pointer as a `jlong`.  It performs
no filesystem check whatsoever — the comment in the source says
"For now, we'll simulate success" — so it never returns 0. -/
def nativeLoadModel (σ : Heap) (path : String) : Heap × Handle :=
  let model := { mkLlamaModel path with loaded := true }
  ({ mem := (σ.next, model) :: σ.mem, next := σ.next + 1 }, σ.next)

/-- The sentinel string `nativeGenerate` returns for a null or unloaded
model. -/
def notLoadedMsg : String := "Error: Model not loaded"

/-- The placeholder response `nativeGenerate` builds for a loaded model:
four fixed string literals followed by the stored model path.  It depends
on nothing but `model_path`. -/
def generateResponse (m : LlamaModel) : String :=
  "Generated response from llama.cpp model. " ++
  "This is a placeholder implementation. " ++
  "In a real implementation, this would use the actual llama.cpp library " ++
  "to generate text based on the GGUF model loaded from: " ++
  m.model_path

/-- `nativeGenerate`: checks `!model || !model->loaded` (short-circuit: the
null pointer is not dereferenced, but a dangling non-null pointer is — UB);
on a loaded model it returns the placeholder response.  The prompt and the
sampling parameters `maxTokens`, `temperature`, `topP`, `topK` are read but
never used (the floats are kept abstract in a type `F`). -/
def nativeGenerate {F : Type} (σ : Heap) (h : Handle) (prompt : String)
    (maxTokens : Int) (temperature topP : F) (topK : Int) : JniResult String :=
  if h = 0 then .ok notLoadedMsg
  else
    match heapGet σ.mem h with
    | some m => if m.loaded then .ok (generateResponse m) else .ok notLoadedMsg
    | none => .ub

/-- `nativeFreeModel`: `if (model) delete model;` — a null handle is a
no-op; deleting a live allocation removes it; deleting a non-null pointer
that is not a live allocation (double free) is UB. -/
def nativeFreeModel (σ : Heap) (h : Handle) : JniResult Heap :=
  if h = 0 then .ok σ
  else
    match heapGet σ.mem h with
    | some _ => .ok { σ with mem := heapRemove σ.mem h }
    | none => .ub

/-- `nativeGetModelSize`: `if (!model) return 0;` then returns the constant
`1024L * 1024L * 500L` without dereferencing the pointer, so even a
dangling non-null handle gets the constant. -/
def nativeGetModelSize (σ : Heap) (h : Handle) : JniResult Int :=
  if h = 0 then .ok 0 else .ok (1024 * 1024 * 500)

/-- `nativeGetVocabSize`: 0 for the null handle; otherwise reads
`model->vocab_size` (UB on a dangling pointer). -/
def nativeGetVocabSize (σ : Heap) (h : Handle) : JniResult Int :=
  if h = 0 then .ok 0
  else
    match heapGet σ.mem h with
    | some m => .ok (Int.ofNat m.vocab_size)
    | none => .ub

/-- `nativeGetContextSize`: 0 for the null handle; otherwise reads
`model->context_size` (UB on a dangling pointer). -/
def nativeGetContextSize (σ : Heap) (h : Handle) : JniResult Int :=
  if h = 0 then .ok 0
  else
    match heapGet σ.mem h with
    | some m => .ok (Int.ofNat m.context_size)
    | none => .ub

/-- The value of the C++ expression `input[pos]` where `input[pos]` has
type `char` holding the byte `b`: the byte itself if `char` is unsigned
(the Android ARM ABIs), its two's-complement reading if `char` is signed
(the x86 ABIs). -/
def charVal (signedChar : Bool) (b : Nat) : Int :=
  if signedChar then (if b < 128 then Int.ofNat b else Int.ofNat b - 256)
  else Int.ofNat b

/-- One step of the tokenize loop:
`(input[pos] * 31 + pos) % model->vocab_size` cast to `jint`.
`input[pos] * 31` is `int` arithmetic; adding the `size_t` counter `pos`
converts it to `size_t` (reduction modulo 2^64 on LP64); `% vocab` is then
`size_t` arithmetic, and the result, being below the vocabulary size, is
representable as `jint`. -/
def tokenStub (signedChar : Bool) (vocab : Nat) (b : Nat) (pos : Nat) : Int :=
  Int.ofNat (((charVal signedChar b * 31 + Int.ofNat pos) % (2 ^ 64 : Int)).toNat % vocab)

/-- The tokenize loop: one token per input byte, at position `pos` the
token `tokenStub` of the byte and `pos`. -/
def tokenizeBytes (signedChar : Bool) (vocab : Nat) (input : List Nat) : List Int :=
  input.enum.map (fun p => tokenStub signedChar vocab p.2 p.1)

/-- `nativeTokenize`: `nullptr` (modelled `none`) for a null or unloaded
model; otherwise the stub token array, one token per byte of the UTF-8
text (the text is embedded as its byte list). -/
def nativeTokenize (signedChar : Bool) (σ : Heap) (h : Handle) (text : List Nat) :
    JniResult (Option (List Int)) :=
  if h = 0 then .ok none
  else
    match heapGet σ.mem h with
    | some m =>
        if m.loaded then .ok (some (tokenizeBytes signedChar m.vocab_size text))
        else .ok none
    | none => .ub

/-- `nativeDetokenize`: the empty string for a null or unloaded model;
otherwise the placeholder
`"Detokenized text from " + std::to_string(length) + " tokens"`. -/
def nativeDetokenize (σ : Heap) (h : Handle) (tokens : List Int) : JniResult String :=
  if h = 0 then .ok ""
  else
    match heapGet σ.mem h with
    | some m =>
        if m.loaded then
          .ok ("Detokenized text from " ++ toString tokens.length ++ " tokens")
        else .ok ""
    | none => .ub

/-- Modelled from the spec: the implementation of `SherpaONNXBridge` is not
part of the source material — only the header declaring its methods is —
so `numberOfSpeakers` is an opaque per-instance `NSInteger` and
`isValidSpeaker` follows the spec sentence
"IsValidSpeaker(id) → boolean: 0 <= id < NumberOfSpeakers()". -/
structure SherpaONNXBridge where
  numberOfSpeakers : Int
deriving DecidableEq, Repr

/-- Modelled from the spec: `isValidSpeaker:` decides
`0 <= id < NumberOfSpeakers()` for an `NSInteger` id. -/
def isValidSpeaker (inst : SherpaONNXBridge) (speakerId : Int) : Bool :=
  decide (0 ≤ speakerId) && decide (speakerId < inst.numberOfSpeakers)

-- Sanity checks on concrete inputs.
example : (nativeLoadModel emptyHeap "missing/path").2 = 1 := rfl
example : nativeTokenize true (nativeLoadModel emptyHeap "m").1 1 [104, 105] =
    .ok (some [3224, 3256]) := by decide
example : nativeDetokenize (nativeLoadModel emptyHeap "m").1 1 [3224, 3256] =
    .ok "Detokenized text from 2 tokens" := by decide

/-! ### Helper lemmas about the heap -/

theorem heapGet_mem {h : Handle} {m : LlamaModel} :
    ∀ {l : List (Handle × LlamaModel)}, heapGet l h = some m → (h, m) ∈ l
  | [], hx => by simp [heapGet] at hx
  | (k, v) :: rest, hx => by
    simp only [heapGet] at hx
    split at hx
    · next hk =>
      injection hx with hvm
      subst hvm; subst hk
      exact List.mem_cons_self _ _
    · next hk => exact List.mem_cons_of_mem _ (heapGet_mem hx)

theorem heapGet_eq_none {h : Handle} :
    ∀ {l : List (Handle × LlamaModel)}, (∀ p ∈ l, p.1 ≠ h) → heapGet l h = none
  | [], _ => rfl
  | (k, v) :: rest, hall => by
    simp only [heapGet]
    rw [if_neg (hall (k, v) (List.mem_cons_self _ _))]
    exact heapGet_eq_none (fun p hp => hall p (List.mem_cons_of_mem _ hp))

theorem tokenStub_nonneg (s : Bool) (v b pos : Nat) : 0 ≤ tokenStub s v b pos := by
  unfold tokenStub
  exact Int.ofNat_nonneg _

theorem tokenStub_lt (s : Bool) (v b pos : Nat) (hv : 0 < v) :
    tokenStub s v b pos < Int.ofNat v := by
  unfold tokenStub
  exact Int.ofNat_lt.mpr (Nat.mod_lt _ hv)

theorem tokenizeBytes_length (s : Bool) (v : Nat) (input : List Nat) :
    (tokenizeBytes s v input).length = input.length := by
  unfold tokenizeBytes
  rw [List.length_map, List.enum_length]

/-! ### Claim theorems -/

/-- C1, counterexample: `Load("missing/path")` does not yield the null
handle 0 — the stub allocates unconditionally and returns the fresh
address 1. -/
theorem C1_counterexample :
    (nativeLoadModel emptyHeap "missing/path").2 = 1 ∧
    (nativeLoadModel emptyHeap "missing/path").2 ≠ 0 := by
  exact ⟨rfl, by decide⟩

/-- C1, amended: `nativeLoadModel` performs no filesystem check at all
("For now, we'll simulate success"); for every path, including a path that
cannot be opened, it returns a non-null handle, never 0. -/
theorem C1_load_never_null (σ : Heap) (path : String) (hwf : σ.WF) :
    (nativeLoadModel σ path).2 ≠ 0 :=
  Nat.pos_iff_ne_zero.mp hwf.1

theorem C1_load_never_null_witness :
    (nativeLoadModel emptyHeap "missing/path").2 ≠ 0 :=
  C1_load_never_null emptyHeap "missing/path" (by decide)

/-- C2: every token produced by `nativeTokenize` on a live loaded handle
lies in `[0, v)` where `v` is what `nativeGetVocabSize` returns for that
handle — for either `char` signedness, hence also for input bytes
≥ 0x80 (the `int` to `size_t` conversion wraps the negative product into
a large unsigned value before the `% vocab_size` reduction). -/
theorem C2_tokens_in_vocab_range (signedChar : Bool) (σ : Heap) (h : Handle)
    (text : List Nat) (toks : List Int) (v : Int) (hwf : σ.WF)
    (ht : nativeTokenize signedChar σ h text = .ok (some toks))
    (hv : nativeGetVocabSize σ h = .ok v) :
    ∀ t ∈ toks, 0 ≤ t ∧ t < v := by
  unfold nativeTokenize at ht
  unfold nativeGetVocabSize at hv
  by_cases h0 : h = 0
  · simp [h0] at ht
  · rw [if_neg h0] at ht hv
    cases hg : heapGet σ.mem h with
    | none => rw [hg] at ht; simp at ht
    | some m =>
      rw [hg] at ht hv
      by_cases hl : m.loaded
      · simp only [hl, if_true, JniResult.ok.injEq, Option.some.injEq] at ht
        simp only [JniResult.ok.injEq] at hv
        subst ht; subst hv
        have hvs : m.vocab_size = 32000 := (hwf.2 (h, m) (heapGet_mem hg)).2.2.1
        intro t htk
        unfold tokenizeBytes at htk
        obtain ⟨p, hp, rfl⟩ := List.mem_map.mp htk
        exact ⟨tokenStub_nonneg _ _ _ _,
          tokenStub_lt _ _ _ _ (by rw [hvs]; norm_num)⟩
      · simp only [Bool.not_eq_true] at hl
        simp [hl] at ht

theorem C2_tokens_in_vocab_range_witness : 0 ≤ (3224 : Int) ∧ (3224 : Int) < 32000 :=
  C2_tokens_in_vocab_range true (nativeLoadModel emptyHeap "m").1 1 [104, 105]
    [3224, 3256] 32000 (by decide) (by decide) (by decide) 3224 (by decide)

/-- C3, counterexample: `Detokenize(h, Tokenize(h, "hi"))` does not
round-trip — the tokens of the bytes of "hi" come back as the fixed
placeholder "Detokenized text from 2 tokens", which is not the input
text (nor anything equivalent to it). -/
theorem C3_counterexample :
    nativeTokenize true (nativeLoadModel emptyHeap "model.gguf").1
      (nativeLoadModel emptyHeap "model.gguf").2 [104, 105] =
      .ok (some [3224, 3256]) ∧
    nativeDetokenize (nativeLoadModel emptyHeap "model.gguf").1
      (nativeLoadModel emptyHeap "model.gguf").2 [3224, 3256] =
      .ok "Detokenized text from 2 tokens" ∧
    "Detokenized text from 2 tokens" ≠ "hi" := by
  exact ⟨by decide, by decide, by decide⟩

/-- C3, amended: `nativeDetokenize` is not an inverse of `nativeTokenize`;
on a live loaded handle it ignores the token values entirely and returns
the placeholder "Detokenized text from N tokens" where N is the sequence
length (any length, including zero, is accepted). -/
theorem C3_detokenize_placeholder (σ : Heap) (h : Handle) (m : LlamaModel)
    (tokens : List Int) (hg : heapGet σ.mem h = some m) (hl : m.loaded = true)
    (h0 : h ≠ 0) :
    nativeDetokenize σ h tokens =
      .ok ("Detokenized text from " ++ toString tokens.length ++ " tokens") := by
  unfold nativeDetokenize
  rw [if_neg h0, hg]
  simp [hl]

theorem C3_detokenize_placeholder_witness :
    nativeDetokenize (nativeLoadModel emptyHeap "m").1 1 [3224, 3256] =
      .ok ("Detokenized text from " ++ toString ([3224, 3256] : List Int).length ++ " tokens") :=
  C3_detokenize_placeholder (nativeLoadModel emptyHeap "m").1 1
    { model_path := "m", vocab_size := 32000, context_size := 2048, loaded := true }
    [3224, 3256] (by decide) rfl (by decide)

/-- C4: every operation invoked on the null handle 0 returns its documented
sentinel and is defined behavior: Generate returns the "not loaded" error
string, Tokenize returns the null array, Detokenize returns the empty
string, and the three accessors return 0. -/
theorem C4_null_handle_sentinels {F : Type} (σ : Heap) (prompt : String)
    (maxTokens : Int) (temperature topP : F) (topK : Int) (signedChar : Bool)
    (text : List Nat) (tokens : List Int) :
    nativeGenerate σ 0 prompt maxTokens temperature topP topK = .ok notLoadedMsg ∧
    nativeTokenize signedChar σ 0 text = .ok none ∧
    nativeDetokenize σ 0 tokens = .ok "" ∧
    nativeGetVocabSize σ 0 = .ok 0 ∧
    nativeGetContextSize σ 0 = .ok 0 ∧
    nativeGetModelSize σ 0 = .ok 0 :=
  ⟨rfl, rfl, rfl, rfl, rfl, rfl⟩

/-- C5, counterexample: after `Load` on the empty heap hands out handle 1
and a first `Release` of it succeeds, a second `Release` of the same
handle reaches `delete` on a pointer that is no longer a live allocation —
a double free, i.e. undefined behavior, not a safe no-op. -/
theorem C5_counterexample :
    nativeFreeModel (nativeLoadModel emptyHeap "p").1 (nativeLoadModel emptyHeap "p").2 =
      .ok { mem := [], next := 2 } ∧
    nativeFreeModel { mem := [], next := 2 } (nativeLoadModel emptyHeap "p").2 = .ub := by
  exact ⟨by decide, by decide⟩

/-- C5, amended: `nativeFreeModel` on the null handle is a safe no-op
(`if (model)` guards the delete), but double release of the same non-null
handle is a double free — the second call is undefined behavior, which the
caller must prevent; it is not safely ignored by the code. -/
theorem C5_null_free_noop_double_free_ub (σ : Heap) (path : String) (hwf : σ.WF) :
    nativeFreeModel σ 0 = .ok σ ∧
    ∀ σ2 : Heap,
      nativeFreeModel (nativeLoadModel σ path).1 (nativeLoadModel σ path).2 = .ok σ2 →
      nativeFreeModel σ2 (nativeLoadModel σ path).2 = .ub := by
  have hne : σ.next ≠ 0 := Nat.pos_iff_ne_zero.mp hwf.1
  constructor
  · rfl
  · intro σ2 hfree
    have hload1 : (nativeLoadModel σ path).1 =
        { mem := (σ.next, { mkLlamaModel path with loaded := true }) :: σ.mem,
          next := σ.next + 1 } := rfl
    have hload2 : (nativeLoadModel σ path).2 = σ.next := rfl
    rw [hload1, hload2] at hfree
    rw [hload2]
    unfold nativeFreeModel at hfree
    rw [if_neg hne] at hfree
    have hget : heapGet ((σ.next, { mkLlamaModel path with loaded := true }) :: σ.mem)
        σ.next = some { mkLlamaModel path with loaded := true } := by
      simp [heapGet]
    rw [hget] at hfree
    have hrem : heapRemove ((σ.next, { mkLlamaModel path with loaded := true }) :: σ.mem)
        σ.next = σ.mem := by
      simp [heapRemove]
    simp only [JniResult.ok.injEq] at hfree
    subst hfree
    unfold nativeFreeModel
    rw [if_neg hne]
    have hnone : heapGet σ.mem σ.next = none :=
      heapGet_eq_none (fun p hp => Nat.ne_of_lt ((hwf.2 p hp).2.1))
    simp only [hrem]
    rw [hnone]

theorem C5_null_free_noop_double_free_ub_witness :
    nativeFreeModel emptyHeap 0 = .ok emptyHeap ∧
    nativeFreeModel { mem := [], next := 2 } (nativeLoadModel emptyHeap "p").2 = .ub :=
  ⟨(C5_null_free_noop_double_free_ub emptyHeap "p" (by decide)).1,
   (C5_null_free_noop_double_free_ub emptyHeap "p" (by decide)).2
     { mem := [], next := 2 } (by decide)⟩

/-- C6, counterexample: after Load hands out handle 1 and Release frees it,
`nativeGenerate` on the released handle dereferences the dangling pointer
(`model->loaded`) — use-after-free, not an error sentinel. -/
theorem C6_counterexample :
    nativeFreeModel (nativeLoadModel emptyHeap "p").1 (nativeLoadModel emptyHeap "p").2 =
      .ok { mem := [], next := 2 } ∧
    nativeGenerate { mem := [], next := 2 } (nativeLoadModel emptyHeap "p").2 "hi" 10
      (0 : Int) (0 : Int) 40 = .ub := by
  exact ⟨by decide, by decide⟩

/-- C6, amended: in the Unloaded state (null handle) every operation
besides Load does return its error sentinel with defined behavior; but in
the Released state (a non-null handle whose allocation has been freed)
Generate, Tokenize, Detokenize, GetVocabSize and GetContextSize all
dereference the freed pointer (undefined behavior), and GetModelSize
returns the 500 MB constant rather than an error. -/
theorem C6_state_machine (F : Type) (σ : Heap) (h : Handle) (prompt : String)
    (maxTokens : Int) (temperature topP : F) (topK : Int) (signedChar : Bool)
    (text : List Nat) (tokens : List Int)
    (h0 : h ≠ 0) (hfreed : heapGet σ.mem h = none) :
    nativeGenerate σ h prompt maxTokens temperature topP topK = .ub ∧
    nativeTokenize signedChar σ h text = .ub ∧
    nativeDetokenize σ h tokens = .ub ∧
    nativeGetVocabSize σ h = .ub ∧
    nativeGetContextSize σ h = .ub ∧
    nativeGetModelSize σ h = .ok (1024 * 1024 * 500) ∧
    nativeGenerate σ 0 prompt maxTokens temperature topP topK = .ok notLoadedMsg ∧
    nativeTokenize signedChar σ 0 text = .ok none ∧
    nativeDetokenize σ 0 tokens = .ok "" ∧
    nativeGetVocabSize σ 0 = .ok 0 ∧
    nativeGetContextSize σ 0 = .ok 0 := by
  refine ⟨?_, ?_, ?_, ?_, ?_, ?_, rfl, rfl, rfl, rfl, rfl⟩ <;>
    simp [nativeGenerate, nativeTokenize, nativeDetokenize, nativeGetVocabSize,
      nativeGetContextSize, nativeGetModelSize, h0, hfreed]

theorem C6_state_machine_witness :
    nativeGenerate { mem := [], next := 2 } 1 "hi" 10 (0 : Int) (0 : Int) 40 = .ub :=
  (C6_state_machine Int { mem := [], next := 2 } 1 "hi" 10 0 0 40 true [104] [3224]
    (by decide) (by decide)).1

/-- C7: on a live loaded handle, `nativeTokenize` returns exactly one token
per input byte — the output length equals the input byte count. -/
theorem C7_tokenize_length (signedChar : Bool) (σ : Heap) (h : Handle)
    (text : List Nat) (toks : List Int)
    (ht : nativeTokenize signedChar σ h text = .ok (some toks)) :
    toks.length = text.length := by
  unfold nativeTokenize at ht
  by_cases h0 : h = 0
  · simp [h0] at ht
  · rw [if_neg h0] at ht
    cases hg : heapGet σ.mem h with
    | none => rw [hg] at ht; simp at ht
    | some m =>
      rw [hg] at ht
      by_cases hl : m.loaded
      · simp only [hl, if_true, JniResult.ok.injEq, Option.some.injEq] at ht
        subst ht
        exact tokenizeBytes_length _ _ _
      · simp only [Bool.not_eq_true] at hl
        simp [hl] at ht

theorem C7_tokenize_length_witness :
    ([3224, 3256] : List Int).length = ([104, 105] : List Nat).length :=
  C7_tokenize_length true (nativeLoadModel emptyHeap "m").1 1 [104, 105]
    [3224, 3256] (by decide)

/-- C8: for every synthesizer instance and every `NSInteger` id,
`isValidSpeaker` holds exactly when `0 ≤ id < numberOfSpeakers`.
(The bridge implementation itself is not part of the source material, so
`isValidSpeaker` is modelled from the spec sentence.) -/
theorem C8_isValidSpeaker_iff (inst : SherpaONNXBridge) (speakerId : Int) :
    isValidSpeaker inst speakerId = true ↔
      0 ≤ speakerId ∧ speakerId < inst.numberOfSpeakers := by
  simp [isValidSpeaker]

/-- C9: on a live loaded handle, `nativeGenerate` ignores the prompt and
all sampling parameters — any two calls (even with float parameters drawn
from different types) return the same string, and that string is a
function of the stored `model_path` alone. -/
theorem C9_generate_ignores_inputs {F G : Type} (σ : Heap) (h : Handle)
    (m : LlamaModel) (hg : heapGet σ.mem h = some m) (hl : m.loaded = true)
    (h0 : h ≠ 0) (p1 p2 : String) (mt1 mt2 : Int) (t1 tp1 : F) (t2 tp2 : G)
    (tk1 tk2 : Int) :
    nativeGenerate σ h p1 mt1 t1 tp1 tk1 = .ok (generateResponse m) ∧
    nativeGenerate σ h p2 mt2 t2 tp2 tk2 = .ok (generateResponse m) ∧
    ∀ m2 : LlamaModel, m2.model_path = m.model_path →
      generateResponse m2 = generateResponse m := by
  refine ⟨?_, ?_, ?_⟩
  · unfold nativeGenerate; rw [if_neg h0, hg]; simp [hl]
  · unfold nativeGenerate; rw [if_neg h0, hg]; simp [hl]
  · intro m2 hp
    unfold generateResponse
    rw [hp]

theorem C9_generate_ignores_inputs_witness :
    nativeGenerate (nativeLoadModel emptyHeap "m").1 1 "hello" 10 (1 : Int) (2 : Int) 40 =
      .ok (generateResponse
        { model_path := "m", vocab_size := 32000, context_size := 2048, loaded := true }) :=
  (C9_generate_ignores_inputs (nativeLoadModel emptyHeap "m").1 1
    { model_path := "m", vocab_size := 32000, context_size := 2048, loaded := true }
    (by decide) rfl (by decide) "hello" "different prompt" 10 99 (1 : Int) (2 : Int)
    (3 : Nat) (4 : Nat) 40 7).1

/-- C10: the accessors on any handle returned by a successful Load give the
constructor constants — vocabulary size 32000, context size 2048 — and the
hard-coded model size 1024·1024·500 = 524288000 bytes, whatever the path
was; the accessors are pure functions of the heap and handle, so repeated
calls return the same values. -/
theorem C10_accessor_constants (σ : Heap) (path : String) (hwf : σ.WF) :
    nativeGetVocabSize (nativeLoadModel σ path).1 (nativeLoadModel σ path).2 = .ok 32000 ∧
    nativeGetContextSize (nativeLoadModel σ path).1 (nativeLoadModel σ path).2 = .ok 2048 ∧
    nativeGetModelSize (nativeLoadModel σ path).1 (nativeLoadModel σ path).2 =
      .ok 524288000 := by
  have hne : σ.next ≠ 0 := Nat.pos_iff_ne_zero.mp hwf.1
  have hload1 : (nativeLoadModel σ path).1 =
      { mem := (σ.next, { mkLlamaModel path with loaded := true }) :: σ.mem,
        next := σ.next + 1 } := rfl
  have hload2 : (nativeLoadModel σ path).2 = σ.next := rfl
  have hget : heapGet
      ((σ.next,
          { model_path := path, vocab_size := 32000, context_size := 2048,
            loaded := true }) :: σ.mem) σ.next =
      some
        { model_path := path, vocab_size := 32000, context_size := 2048,
          loaded := true } := by
    simp [heapGet]
  refine ⟨?_, ?_, ?_⟩ <;>
    · rw [hload1, hload2]
      simp [nativeGetVocabSize, nativeGetContextSize, nativeGetModelSize, hne, hget,
        mkLlamaModel]

theorem C10_accessor_constants_witness :
    nativeGetVocabSize (nativeLoadModel emptyHeap "any.gguf").1
      (nativeLoadModel emptyHeap "any.gguf").2 = .ok 32000 ∧
    nativeGetContextSize (nativeLoadModel emptyHeap "any.gguf").1
      (nativeLoadModel emptyHeap "any.gguf").2 = .ok 2048 ∧
    nativeGetModelSize (nativeLoadModel emptyHeap "any.gguf").1
      (nativeLoadModel emptyHeap "any.gguf").2 = .ok 524288000 :=
  C10_accessor_constants emptyHeap "any.gguf" (by decide)
